import Mathlib

/-!
Verification development for the Sebestian video-creation service.

The definitions below are a shallow embedding of the orchestration logic in
`src/controllers/ffmpeg_controller.js` (the `Convert` request handler and its
helpers), plus the pieces of `src/unnamed/part_001` (`lat_ffmpeh_controller.js`)
and `src/unnamed/part_005` (the server entry point) that the claims touch.
External effects are made explicit: the success/failure of each `ffmpeg`
subprocess invocation is an oracle `exec : String → Bool` applied to the exact
command string the code builds, HTTP downloads are represented by their
observable result (an error, or the byte length of the fetched body), and the
scratch filesystem is a list of scratch-directory names.
-/

set_option maxRecDepth 100000

namespace Sebestian

/-- Single-quote character (codepoint 39), used when the source interpolates a
quote into a command or play-list line. -/
def sq : String := String.singleton (Char.ofNat 39)

/-- Backslash character (codepoint 92). -/
def bs : String := String.singleton (Char.ofNat 92)

/-- Double-quote character (codepoint 34). -/
def dq : String := String.singleton (Char.ofNat 34)

/-- Substring test: `strContains hay needle` is true when `needle` occurs
contiguously inside `hay`. -/
def strContains (hay needle : String) : Bool :=
  decide (needle.data <:+: hay.data)

/-- One megabyte, as used by the size arithmetic in the controller. -/
def MB : Nat := 1024 * 1024

/-- `FFMPEG_PATH` constant from `ffmpeg_controller.js` line 15. -/
def FFMPEG_PATH : String := "/usr/bin/ffmpeg"

/-- Node `path.join(a, b)` for the simple (no dot-segment) joins the
controller performs inside the job directory. -/
def pathJoin (a b : String) : String := a ++ "/" ++ b

/-! ## Fetcher: `downloadFile` (ffmpeg_controller.js lines 61-82) -/

/-- Effective constraints of one `downloadFile(url, filePath, maxSize?)` call:
the `maxSize` parameter defaults to `100 * 1024 * 1024` and the axios timeout
is hard-coded to `60000` ms inside the helper (lines 61-68). -/
structure DownloadConstraints where
  maxSize : Nat
  timeoutMs : Nat
deriving DecidableEq

/-- Constraints produced by a call to `downloadFile`, as a function of the
optional third argument of the call site. -/
def downloadFileConstraints (maxSizeArg : Option Nat) : DownloadConstraints :=
  { maxSize := maxSizeArg.getD (100 * MB), timeoutMs := 60000 }

/-- The audio call site `downloadFile(url, filePath)` (line 248) passes no
third argument. -/
def audioDownloadConstraints : DownloadConstraints := downloadFileConstraints none

/-- The image call site `downloadFile(imageUrl, imagePath)` (line 263) passes
no third argument. -/
def imageDownloadConstraints : DownloadConstraints := downloadFileConstraints none

/-- `downloadFile` body: the axios request either fails (network error, error
status, timeout, or axios-enforced `maxContentLength`) — modelled as
`Except.error` — or yields a body of `len` bytes.  The code then re-checks
`response.data.length > maxSize`, writes the file and returns; any thrown
error is re-wrapped with the prefix `Failed to download file: `.  The result
carries the size of the saved file.  There is no lower bound on `len`. -/
def downloadFile (axiosResult : Except String Nat) (maxSize : Nat := 100 * MB) :
    Except String Nat :=
  match axiosResult with
  | Except.error e => Except.error ("Failed to download file: " ++ e)
  | Except.ok len =>
      if len > maxSize then
        Except.error ("Failed to download file: File too large: " ++ toString len ++ " bytes")
      else
        Except.ok len

/-! ## Request validation (`Convert`, ffmpeg_controller.js lines 189-238) -/

/-- Test of the controller's `urlRegex = /^https?:\/\/.+/`: the string starts
with `http://` or `https://` and has at least one further character. -/
def urlRegexTest (s : String) : Bool :=
  ("http://".isPrefixOf s && 7 < s.length) || ("https://".isPrefixOf s && 8 < s.length)

/-- Extensions accepted by `supportedImageFormats = /\.(jpg|jpeg|png|gif|bmp|webp)$/i`. -/
def supportedImageExts : List String := ["jpg", "jpeg", "png", "gif", "bmp", "webp"]

/-- `imageUrl.split('?')[0]` — the URL with any query string removed. -/
def stripQuery (url : String) : String := (url.splitOn "?").headD url

/-- Case-insensitive test that the (query-stripped) URL ends in a supported
image extension. -/
def hasSupportedImageFormat (url : String) : Bool :=
  supportedImageExts.any (fun e => decide (("." ++ e).data <:+ url.toLower.data))

/-- Sanitization of the free-text fields: `trim()` then
`replace(/['"\\]/g, '')`, i.e. removal of single quotes (39), double quotes
(34) and backslashes (92). -/
def sanitizeText (s : String) : String :=
  String.mk (s.trim.data.filter (fun c =>
    !(c == Char.ofNat 39) && !(c == Char.ofNat 34) && !(c == Char.ofNat 92)))

/-- Request body of `POST /api/ffmpeg/create-video`.  A `none` field models an
absent field or one of the wrong JSON type (the code checks `Array.isArray`
and `typeof === 'string'`). -/
structure ReqBody where
  files : Option (List String)
  imageUrl : Option String
  vibe : Option String
  subtitle : Option String

/-- Outcome of the validation block: an early `res.status(400).json(...)`
rejection, or the validated data the pipeline proceeds with. -/
inductive ValidationOutcome
  | reject (status : Nat) (msg : String)
  | accept (files : List String) (imageUrl sanitizedVibe sanitizedSubtitle : String)
deriving DecidableEq

/-- The validation block of `Convert` (lines 189-238), check for check and in
source order: files array present/non-empty, at most 20 entries, every entry
an HTTP(S) URL, image URL present and HTTP(S), supported image extension
(checked on the query-stripped URL), vibe and subtitle present and non-blank,
and the sanitized texts at most 100 characters. -/
def validateRequest (b : ReqBody) : ValidationOutcome :=
  match b.files with
  | none => ValidationOutcome.reject 400
      ("Please provide an array of audio file URLs in " ++ sq ++ "files" ++ sq ++ ".")
  | some files =>
    if files.length = 0 then
      ValidationOutcome.reject 400
        ("Please provide an array of audio file URLs in " ++ sq ++ "files" ++ sq ++ ".")
    else if files.length > 20 then
      ValidationOutcome.reject 400 "Maximum 20 audio files allowed."
    else if !(files.all urlRegexTest) then
      ValidationOutcome.reject 400 "All files must be valid HTTP/HTTPS URLs."
    else
      match b.imageUrl with
      | none => ValidationOutcome.reject 400
          ("Please provide a valid image URL in " ++ sq ++ "imageUrl" ++ sq ++ ".")
      | some imageUrl =>
        if !(urlRegexTest imageUrl) then
          ValidationOutcome.reject 400
            ("Please provide a valid image URL in " ++ sq ++ "imageUrl" ++ sq ++ ".")
        else if !(hasSupportedImageFormat (stripQuery imageUrl)) then
          ValidationOutcome.reject 400
            "Unsupported image format. Supported formats: JPG, JPEG, PNG, GIF, BMP, WEBP"
        else
          match b.vibe with
          | none => ValidationOutcome.reject 400
              ("Please provide a valid " ++ sq ++ "vibe" ++ sq ++ " text.")
          | some vibe =>
            if vibe.trim.length = 0 then
              ValidationOutcome.reject 400
                ("Please provide a valid " ++ sq ++ "vibe" ++ sq ++ " text.")
            else
              match b.subtitle with
              | none => ValidationOutcome.reject 400
                  ("Please provide a valid " ++ sq ++ "subtitle" ++ sq ++ " text.")
              | some subtitle =>
                if subtitle.trim.length = 0 then
                  ValidationOutcome.reject 400
                    ("Please provide a valid " ++ sq ++ "subtitle" ++ sq ++ " text.")
                else
                  if (sanitizeText vibe).length > 100 then
                    ValidationOutcome.reject 400 "Vibe and subtitle must be 100 characters or less."
                  else if (sanitizeText subtitle).length > 100 then
                    ValidationOutcome.reject 400 "Vibe and subtitle must be 100 characters or less."
                  else
                    ValidationOutcome.accept files imageUrl
                      (sanitizeText vibe) (sanitizeText subtitle)

/-- URLs the pipeline downloads, in order: Step 1 fetches every audio URL and
Step 1.5 fetches the image URL, and both steps run only after the validation
block has passed (lines 242-268); a rejected request downloads nothing. -/
def downloadsPerformed (b : ReqBody) : List String :=
  match validateRequest b with
  | ValidationOutcome.reject _ _ => []
  | ValidationOutcome.accept files imageUrl _ _ => files ++ [imageUrl]

/-! ## Concat play-list (`Convert` Step 2, ffmpeg_controller.js lines 270-290) -/

/-- Download target of the `i`-th audio file: `path.join(jobDir, `audio_i.mp3`)`
(line 247). -/
def audioFilePath (jobDir : String) (i : Nat) : String :=
  pathJoin jobDir ("audio_" ++ toString i ++ ".mp3")

/-- The `downloadedFiles` array after Step 1: the raw download targets, in
input order. -/
def downloadedFiles (jobDir : String) (n : Nat) : List String :=
  (List.range n).map (audioFilePath jobDir)

/-- `silenceFile = path.join(jobDir, "silence.m4a")` (line 273). -/
def silenceFilePath (jobDir : String) : String := pathJoin jobDir "silence.m4a"

/-- One play-list line, `file '<path>'`. -/
def fileLine (p : String) : String := "file " ++ sq ++ p ++ sq

/-- The `concatLines` loop (lines 278-285): for each index push the track
line, and after every file except the last push the silence line. -/
def concatLines : List String → String → List String
  | [], _ => []
  | [f], _ => [fileLine f]
  | f :: g :: rest, s => fileLine f :: fileLine s :: concatLines (g :: rest) s

/-! ## The ffmpeg command strings built by `Convert` -/

/-- Silence-generation command (lines 274-276). -/
def silenceCmd (silenceFile : String) : String :=
  dq ++ FFMPEG_PATH ++ dq ++ " -f lavfi -i anullsrc=r=44100:cl=stereo -t 1 -c:a aac -b:a 128k "
    ++ dq ++ silenceFile ++ dq

/-- The ffmpeg invocations issued between the audio downloads and the write of
`list.txt`: exactly the silence generation — Step 2 performs no per-file
decode/re-encode of the downloaded audio. -/
def prePlaylistCommands (jobDir : String) : List String :=
  [silenceCmd (silenceFilePath jobDir)]

/-- The sanitize command of the separate audio-only controller
(`lat_ffmpeh_controller.js`, `sanitizeMp3ToWav`, part_001 lines 45-49); it is
never invoked from `Convert`. -/
def sanitizeMp3ToWavCmd (mp3Path wavPath : String) : String :=
  dq ++ FFMPEG_PATH ++ dq ++ " -y -hide_banner -loglevel error -err_detect ignore_err -i "
    ++ dq ++ mp3Path ++ dq ++ " -vn -acodec pcm_s16le -ar 44100 -ac 2 " ++ dq ++ wavPath ++ dq

/-- Merge-and-normalize command (line 297): concat demuxer over the play-list,
a single-pass `loudnorm` audio filter, AAC encode. -/
def mergeNormalizeCmd (listFile finalFile : String) : String :=
  dq ++ FFMPEG_PATH ++ dq ++ " -y -f concat -safe 0 -i " ++ dq ++ listFile ++ dq
    ++ " -af " ++ dq ++ "loudnorm=I=-16:TP=-1.5:LRA=11" ++ dq
    ++ " -c:a aac -b:a 128k -ar 44100 " ++ dq ++ finalFile ++ dq

/-- Step 3 of `Convert` (lines 292-307): the `try` block issues exactly one
ffmpeg invocation (`mergeNormalizeCmd`); the `catch` block re-throws — there
is no second or third normalization attempt.  The result pairs the list of
invocations attempted with the step's outcome. -/
def normalizeStage (exec : String → Bool) (listFile finalFile : String) :
    List String × Except String Unit :=
  let cmd := mergeNormalizeCmd listFile finalFile
  if exec cmd then (⟨[cmd], Except.ok ()⟩ : List String × Except String Unit)
  else ⟨[cmd], Except.error "Failed to merge and normalize audio"⟩

/-- Primary video encode command (lines 328-332).  Its filter graph is
`scale=1920:1080:force_original_aspect_ratio=increase,crop=1920:1080` — scale
and center-crop only. -/
def videoCommand (imagePath finalFile videoFile : String) : String :=
  dq ++ FFMPEG_PATH ++ dq ++ " -y -loop 1 -i " ++ dq ++ imagePath ++ dq
    ++ " -i " ++ dq ++ finalFile ++ dq
    ++ " -c:v libx264 -preset slow -crf 18 -tune stillimage"
    ++ " -b:v 5000k -maxrate 8000k -bufsize 10000k"
    ++ " -c:a copy -pix_fmt yuv420p -movflags +faststart -shortest -vf "
    ++ dq ++ "scale=1920:1080:force_original_aspect_ratio=increase,crop=1920:1080" ++ dq
    ++ " " ++ dq ++ videoFile ++ dq

/-- Fallback video encode command (line 348): same filter graph, `-preset
medium -crf 23`, no bitrate caps. -/
def simpleVideoCommand (imagePath finalFile videoFile : String) : String :=
  dq ++ FFMPEG_PATH ++ dq ++ " -y -loop 1 -i " ++ dq ++ imagePath ++ dq
    ++ " -i " ++ dq ++ finalFile ++ dq
    ++ " -c:v libx264 -preset medium -crf 23 -tune stillimage"
    ++ " -c:a copy -pix_fmt yuv420p -movflags +faststart -shortest -vf "
    ++ dq ++ "scale=1920:1080:force_original_aspect_ratio=increase,crop=1920:1080" ++ dq
    ++ " " ++ dq ++ videoFile ++ dq

/-- Step 6 of `Convert` (lines 312-360): try the primary command; on failure
try the fallback command; if both fail the step throws. -/
def videoStage (exec : String → Bool) (imagePath finalFile videoFile : String) :
    List String × Except String Unit :=
  let c1 := videoCommand imagePath finalFile videoFile
  let c2 := simpleVideoCommand imagePath finalFile videoFile
  if exec c1 then ⟨[c1], Except.ok ()⟩
  else if exec c2 then ⟨[c1, c2], Except.ok ()⟩
  else ⟨[c1, c2], Except.error "Failed to create video after all fallback attempts"⟩

/-! ## Thumbnail rendering (`Convert` Step 7, ffmpeg_controller.js lines 362-430) -/

/-- Escaping of text interpolated into a `drawtext` filter (`escapeDrawtext`,
lines 366-373): backslash to four backslashes, then escape colon, single
quote, brackets, comma, semicolon. -/
def escapeDrawtext (text : String) : String :=
  ((((((text.replace bs (bs ++ bs ++ bs ++ bs)).replace ":" (bs ++ ":")).replace
    sq (sq ++ bs ++ bs ++ bs ++ sq ++ sq)).replace "[" (bs ++ "[")).replace
    "]" (bs ++ "]")).replace "," (bs ++ ",")).replace ";" (bs ++ ";")

/-- Bundled font file path (line 383). -/
def fontFile : String := "/usr/share/fonts/truetype/dejavu/DejaVuSans-Bold.ttf"

/-- The two-line drawtext filter with an explicit `fontfile` reference
(line 386). -/
def thumbnailTextFilterFont (escapedVibe escapedSubtitle : String) : String :=
  "drawtext=fontfile=" ++ sq ++ fontFile ++ sq ++ ":text=" ++ sq ++ escapedVibe ++ sq
    ++ ":fontsize=72:fontcolor=white:x=(w-text_w)/2:y=(h-text_h)/2-80:borderw=3:bordercolor=black,"
    ++ "drawtext=fontfile=" ++ sq ++ fontFile ++ sq ++ ":text=" ++ sq ++ escapedSubtitle ++ sq
    ++ ":fontsize=48:fontcolor=white:x=(w-text_w)/2:y=(h-text_h)/2+40:borderw=2:bordercolor=black"

/-- The same layout with no `fontfile` reference (line 408). -/
def thumbnailTextFilterNoFont (escapedVibe escapedSubtitle : String) : String :=
  "drawtext=text=" ++ sq ++ escapedVibe ++ sq
    ++ ":fontsize=72:fontcolor=white:x=(w-text_w)/2:y=(h-text_h)/2-80:borderw=3:bordercolor=black,"
    ++ "drawtext=text=" ++ sq ++ escapedSubtitle ++ sq
    ++ ":fontsize=48:fontcolor=white:x=(w-text_w)/2:y=(h-text_h)/2+40:borderw=2:bordercolor=black"

/-- Tier-1 thumbnail command: bundled font file (line 389). -/
def thumbCmdFont (imagePath sv ss thumbnailFile : String) : String :=
  dq ++ FFMPEG_PATH ++ dq ++ " -y -i " ++ dq ++ imagePath ++ dq ++ " -vf "
    ++ dq ++ "scale=1920:1080:force_original_aspect_ratio=increase,crop=1920:1080,"
    ++ thumbnailTextFilterFont (escapeDrawtext sv) (escapeDrawtext ss) ++ dq
    ++ " -frames:v 1 -q:v 2 " ++ dq ++ thumbnailFile ++ dq

/-- Tier-2 thumbnail command: same layout, default font (line 410). -/
def thumbCmdNoFont (imagePath sv ss thumbnailFile : String) : String :=
  dq ++ FFMPEG_PATH ++ dq ++ " -y -i " ++ dq ++ imagePath ++ dq ++ " -vf "
    ++ dq ++ "scale=1920:1080:force_original_aspect_ratio=increase,crop=1920:1080,"
    ++ thumbnailTextFilterNoFont (escapeDrawtext sv) (escapeDrawtext ss) ++ dq
    ++ " -frames:v 1 -q:v 2 " ++ dq ++ thumbnailFile ++ dq

/-- Tier-3 thumbnail command: scale/crop only, no text (line 421). -/
def thumbCmdNoText (imagePath thumbnailFile : String) : String :=
  dq ++ FFMPEG_PATH ++ dq ++ " -y -i " ++ dq ++ imagePath ++ dq ++ " -vf "
    ++ dq ++ "scale=1920:1080:force_original_aspect_ratio=increase,crop=1920:1080" ++ dq
    ++ " -frames:v 1 -q:v 2 " ++ dq ++ thumbnailFile ++ dq

/-- Step 7 of `Convert` (lines 375-430): nested try/catch — tier 1 with the
bundled font, on failure tier 2 without a font reference, on failure tier 3
without text; only when all three invocations fail does the step throw. -/
def thumbnailStage (exec : String → Bool) (imagePath sv ss thumbnailFile : String) :
    List String × Except String Unit :=
  let c1 := thumbCmdFont imagePath sv ss thumbnailFile
  let c2 := thumbCmdNoFont imagePath sv ss thumbnailFile
  let c3 := thumbCmdNoText imagePath thumbnailFile
  if exec c1 then ⟨[c1], Except.ok ()⟩
  else if exec c2 then ⟨[c1, c2], Except.ok ()⟩
  else if exec c3 then ⟨[c1, c2, c3], Except.ok ()⟩
  else ⟨[c1, c2, c3], Except.error "Failed to create thumbnail"⟩

/-- Response of `Convert` as observable after the video step has succeeded.
A success response always carries both a video URL and a thumbnail URL
(lines 465-503); a thrown `ThumbnailError` reaches the outer catch, which
sends a single HTTP 500 failure (lines 520-537) — there is no video-only
partial success. -/
inductive JobResponse
  | success (videoUrl thumbnailUrl : String)
  | failure (status : Nat) (error details : String)
deriving DecidableEq

/-- The tail of `Convert` after a successful video encode, in local-delivery
mode: run the thumbnail step, then either respond with both download URLs or
fall into the outer error handler. -/
def convertAfterVideo (exec : String → Bool) (jobId imagePath sv ss thumbnailFile : String) :
    JobResponse :=
  match (thumbnailStage exec imagePath sv ss thumbnailFile).2 with
  | Except.ok _ =>
      JobResponse.success ("/api/ffmpeg/download/video/" ++ jobId)
        ("/api/ffmpeg/download/thumbnail/" ++ jobId)
  | Except.error e => JobResponse.failure 500 "Video creation failed" e

/-! ## Workspace lifecycle (`Convert` entry, startup IIFE, shutdown handler) -/

/-- The state-relevant actions of the process, in the order the source
performs them. -/
inductive LifecycleAction
  | ensureTempDir
  | cleanupAllTempFiles
  | validatePayload
  | allocateWorkspace (jobId : String)
  | downloadAndProcess
  | respond
deriving DecidableEq, BEq

/-- Effect of one action on the set of scratch directories under `temp/`:
`cleanupAllTempFiles` (lines 97-137) removes every entry; `fs.ensureDir(jobDir)`
(line 238) adds the new job's directory; every other action leaves the scratch
area untouched. -/
def applyAction (dirs : List String) : LifecycleAction → List String
  | LifecycleAction.cleanupAllTempFiles => []
  | LifecycleAction.allocateWorkspace j => dirs ++ [j]
  | _ => dirs

/-- Fold a sequence of actions over an initial scratch state. -/
def runActions (dirs : List String) (as : List LifecycleAction) : List String :=
  as.foldl applyAction dirs

/-- Startup IIFE (lines 22-30): `fs.ensureDir(TEMP_DIR)` only — the comment
reads `no cleanup - will be done on first API call`. -/
def startupActions : List LifecycleAction := [LifecycleAction.ensureTempDir]

/-- `gracefulShutdown` in the server entry point (part_005 lines 37-47) logs
`No cleanup needed - will be cleaned on next API request` and exits: it
touches no scratch directory. -/
def shutdownActions : List LifecycleAction := []

/-- Action sequence of one `Convert` call (lines 179-538):
`cleanupAllTempFiles()` first, then validation; a rejected request responds
immediately, an accepted one allocates its workspace and processes; neither
the success tail nor the catch block performs any cleanup (both are marked
`NO CLEANUP - Will be cleaned on next API call`). -/
def convertActions (valid : Bool) (jobId : String) : List LifecycleAction :=
  [LifecycleAction.cleanupAllTempFiles, LifecycleAction.validatePayload] ++
    (if valid then
      [LifecycleAction.allocateWorkspace jobId, LifecycleAction.downloadAndProcess,
        LifecycleAction.respond]
    else [LifecycleAction.respond])

/-! ## Download sub-endpoints (ffmpeg_controller.js lines 570-670) -/

/-- Split a character list on `/`, accumulating the current segment. -/
def splitSegsAux : List Char → List Char → List String
  | [], cur => [String.mk cur.reverse]
  | c :: rest, cur =>
      if c = '/' then String.mk cur.reverse :: splitSegsAux rest []
      else splitSegsAux rest (c :: cur)

/-- Split a path string on `/`, dropping empty segments. -/
def splitPath (s : String) : List String :=
  (splitSegsAux s.data []).filter (fun seg => seg ≠ "")

/-- Node path normalization on segment lists: `.` disappears and `..` pops the
previous segment (at the root of an absolute path a `..` is dropped). -/
def normalizeSegsAux : List String → List String → List String
  | acc, [] => acc.reverse
  | acc, "." :: rest => normalizeSegsAux acc rest
  | [], ".." :: rest => normalizeSegsAux [] rest
  | _ :: accTl, ".." :: rest => normalizeSegsAux accTl rest
  | acc, seg :: rest => normalizeSegsAux (seg :: acc) rest

/-- Normalize an absolute path given as a segment list. -/
def normalizeSegs (segs : List String) : List String := normalizeSegsAux [] segs

/-- `TEMP_DIR = path.join(process.cwd(), "temp")`, as segments of an absolute
path. -/
def tempDirSegs (cwd : List String) : List String := cwd ++ ["temp"]

/-- The file `downloadVideo` serves for a given `jobId` route parameter:
`path.join(path.join(TEMP_DIR, jobId), "final_video.mp4")` (lines 578-579),
with the raw `jobId` joined in and the result normalized by `path.join`. -/
def resolvedVideoPath (cwd : List String) (jobId : String) : List String :=
  normalizeSegs (tempDirSegs cwd ++ splitPath jobId ++ ["final_video.mp4"])

/-- The file `downloadThumbnail` serves (lines 631-632). -/
def resolvedThumbnailPath (cwd : List String) (jobId : String) : List String :=
  normalizeSegs (tempDirSegs cwd ++ splitPath jobId ++ ["thumbnail.jpg"])

/-- A path is confined to the scratch area when it extends `TEMP_DIR`. -/
def withinTemp (cwd : List String) (p : List String) : Bool :=
  (tempDirSegs cwd).isPrefixOf p

/-- Response of a download sub-endpoint. -/
inductive DlResponse
  | badRequest
  | notFound
  | stream (p : List String)
deriving DecidableEq

/-- `downloadVideo` (lines 570-620): the `jobId` route parameter is checked
for presence only (`if (!jobId)` — the empty string is falsy); the served path
is built by joining the raw parameter onto `TEMP_DIR`; if a file exists there
it is streamed, else 404. -/
def downloadVideo (cwd : List String) (fileExists : List String → Bool)
    (jobId : String) : DlResponse :=
  if jobId = "" then DlResponse.badRequest
  else if fileExists (resolvedVideoPath cwd jobId) then
    DlResponse.stream (resolvedVideoPath cwd jobId)
  else DlResponse.notFound

/-- `downloadThumbnail` (lines 623-670), same shape. -/
def downloadThumbnail (cwd : List String) (fileExists : List String → Bool)
    (jobId : String) : DlResponse :=
  if jobId = "" then DlResponse.badRequest
  else if fileExists (resolvedThumbnailPath cwd jobId) then
    DlResponse.stream (resolvedThumbnailPath cwd jobId)
  else DlResponse.notFound

/-- Request body of end-to-end scenario B: 21 audio URLs. -/
def exampleOver20Body : ReqBody :=
  { files := some (List.replicate 21 "https://example.com/a.mp3")
    imageUrl := some "https://example.com/bg.png"
    vibe := some "Ocean Breeze"
    subtitle := some "Lo Fi Focus Mix" }

/-! ## Helper lemmas -/

theorem string_data_append (a b : String) : (a ++ b).data = a.data ++ b.data := rfl

theorem string_append_right_inj {b c : String} (a : String) (h : a ++ b = a ++ c) : b = c := by
  apply String.ext
  have hd := congrArg String.data h
  rw [string_data_append, string_data_append] at hd
  exact List.append_cancel_left hd

theorem audio_ne_silence (jobDir : String) (i : Nat) :
    audioFilePath jobDir i ≠ silenceFilePath jobDir := by
  intro h
  have h2 : ("audio_" ++ toString i ++ ".mp3" : String) = "silence.m4a" := by
    apply string_append_right_inj (jobDir ++ "/")
    simpa [audioFilePath, silenceFilePath, pathJoin, String.append_assoc] using h
  have hd := congrArg String.data h2
  rw [string_data_append, string_data_append] at hd
  have h3 : 'a' = 's' := by
    have h4 := congrArg (fun l => l.getD 0 ' ') hd
    simp at h4
  exact absurd h3 (by decide)

theorem fileLine_inj {p q : String} (h : fileLine p = fileLine q) : p = q := by
  have h1 : ("file " ++ sq : String) ++ (p ++ sq) = ("file " ++ sq) ++ (q ++ sq) := by
    simpa [fileLine, String.append_assoc] using h
  have h2 := string_append_right_inj _ h1
  apply String.ext
  have hd := congrArg String.data h2
  rw [string_data_append, string_data_append] at hd
  exact List.append_cancel_right hd

theorem length_intersperse {α : Type} (sep : α) :
    ∀ l : List α, (List.intersperse sep l).length = 2 * l.length - 1
  | [] => rfl
  | [_] => rfl
  | a :: b :: tl => by
      rw [List.intersperse_cons_cons]
      have ih := length_intersperse sep (b :: tl)
      simp only [List.length_cons] at *
      omega

theorem countP_intersperse {α : Type} (p : α → Bool) (sep : α) (hsep : p sep = false) :
    ∀ l : List α, (∀ x ∈ l, p x = true) → (List.intersperse sep l).countP p = l.length
  | [], _ => rfl
  | [a], h => by simp [List.countP_cons, h a (by simp)]
  | a :: b :: tl, h => by
      rw [List.intersperse_cons_cons]
      have ih := countP_intersperse p sep hsep (b :: tl) (fun x hx => h x (by
        simp only [List.mem_cons] at hx ⊢
        tauto))
      rw [List.countP_cons, List.countP_cons, ih, hsep, h a (by simp)]
      simp

theorem countP_sep_intersperse {α : Type} (p : α → Bool) (sep : α) (hsep : p sep = true) :
    ∀ l : List α, (∀ x ∈ l, p x = false) → (List.intersperse sep l).countP p = l.length - 1
  | [], _ => rfl
  | [a], h => by simp [List.countP_cons, h a (by simp)]
  | a :: b :: tl, h => by
      rw [List.intersperse_cons_cons]
      have ih := countP_sep_intersperse p sep hsep (b :: tl) (fun x hx => h x (by
        simp only [List.mem_cons] at hx ⊢
        tauto))
      rw [List.countP_cons, List.countP_cons, ih, hsep, h a (by simp)]
      have e0 : (if (false = true) then (1:Nat) else 0) = 0 := rfl
      have e1 : (if (true = true) then (1:Nat) else 0) = 1 := rfl
      rw [e0, e1]
      simp only [List.length_cons]
      omega

theorem filter_intersperse {α : Type} (p : α → Bool) (sep : α) (hsep : p sep = false) :
    ∀ l : List α, (∀ x ∈ l, p x = true) → (List.intersperse sep l).filter p = l
  | [], _ => rfl
  | [a], h => by simp [List.filter_cons, h a (by simp)]
  | a :: b :: tl, h => by
      rw [List.intersperse_cons_cons]
      have ih := filter_intersperse p sep hsep (b :: tl) (fun x hx => h x (by
        simp only [List.mem_cons] at hx ⊢
        tauto))
      rw [List.filter_cons, List.filter_cons, hsep, h a (by simp)]
      simp [ih]

theorem getD_intersperse {α : Type} (sep d : α) :
    ∀ (l : List α) (i : Nat), i < 2 * l.length - 1 →
      (List.intersperse sep l).getD i d = if i % 2 = 0 then l.getD (i / 2) d else sep
  | [], i, h => by simp at h
  | [a], i, h => by
      have hi : i = 0 := by simp at h; omega
      subst hi
      rfl
  | a :: b :: tl, i, h => by
      rw [List.intersperse_cons_cons]
      match i with
      | 0 => rfl
      | 1 => rfl
      | Nat.succ (Nat.succ k) =>
        have hk : k < 2 * (b :: tl).length - 1 := by
          simp only [List.length_cons] at h ⊢
          omega
        have ih := getD_intersperse sep d (b :: tl) k hk
        have e1 : (a :: sep :: List.intersperse sep (b :: tl)).getD (k + 2) d
            = (List.intersperse sep (b :: tl)).getD k d := rfl
        rw [e1, ih]
        have hmod : (k + 2) % 2 = k % 2 := by omega
        by_cases hpar : k % 2 = 0
        · have hdiv : (k + 2) / 2 = k / 2 + 1 := by omega
          rw [hmod, hdiv]
          simp [hpar]
        · simp [hmod, hpar]

theorem concatLines_eq_intersperse :
    ∀ (files : List String) (s : String),
      concatLines files s = List.intersperse (fileLine s) (files.map fileLine)
  | [], _ => rfl
  | [_], _ => rfl
  | f :: g :: tl, s => by
      rw [List.map_cons, List.map_cons, List.intersperse_cons_cons, ← List.map_cons fileLine g tl,
        ← concatLines_eq_intersperse (g :: tl) s]
      rfl

theorem length_downloadedFiles (jobDir : String) (n : Nat) :
    (downloadedFiles jobDir n).length = n := by
  simp [downloadedFiles]

theorem getD_map_downloadedFiles (jobDir : String) {n k : Nat} (h : k < n) :
    ((downloadedFiles jobDir n).map fileLine).getD k "" = fileLine (audioFilePath jobDir k) := by
  have hk : k < ((downloadedFiles jobDir n).map fileLine).length := by
    simp [length_downloadedFiles, h]
  rw [List.getD_eq_getElem _ _ hk]
  simp [downloadedFiles]

theorem mem_map_downloadedFiles_ne_silence (jobDir : String) (n : Nat) :
    ∀ x ∈ (downloadedFiles jobDir n).map fileLine,
      (!(x == fileLine (silenceFilePath jobDir))) = true := by
  intro x hx
  simp only [List.mem_map] at hx
  obtain ⟨f, hf, rfl⟩ := hx
  simp only [downloadedFiles, List.mem_map] at hf
  obtain ⟨i, _, rfl⟩ := hf
  simp only [Bool.not_eq_true', beq_eq_false_iff_ne, ne_eq]
  intro hc
  exact audio_ne_silence jobDir i (fileLine_inj hc)

/-! ## Claim theorems -/

/-- C1 (counterexample): in a run where every ffmpeg invocation fails, the
Concatenation & Normalization step of `Convert` attempts exactly one
invocation — the single-pass `loudnorm` merge command — and then reports
failure; no command applying a dynamic-range filter (`dynaudnorm`) or a flat
gain (`volume=`) is ever attempted, so the claimed three-tier cascade (and in
particular the tertiary flat-gain attempt after the first two tiers fail)
does not exist in the code. -/
theorem C1_counterexample :
    (normalizeStage (fun _ => false) "list.txt" "final_audio.m4a").1
        = [mergeNormalizeCmd "list.txt" "final_audio.m4a"] ∧
    (normalizeStage (fun _ => false) "list.txt" "final_audio.m4a").2
        = Except.error "Failed to merge and normalize audio" ∧
    strContains (mergeNormalizeCmd "list.txt" "final_audio.m4a") "loudnorm" = true ∧
    strContains (mergeNormalizeCmd "list.txt" "final_audio.m4a") "dynaudnorm" = false ∧
    strContains (mergeNormalizeCmd "list.txt" "final_audio.m4a") "volume=" = false := by
  refine ⟨rfl, rfl, by decide, by decide, by decide⟩

/-- C1 (amended): loudness normalization in `Convert` is a single-tier
attempt: the stage issues exactly one ffmpeg invocation (concat-merge plus
single-pass `loudnorm`, encoded to AAC) and succeeds exactly when that
invocation succeeds; when it fails the stage fails immediately, with no
secondary or tertiary fallback strategy. -/
theorem C1_single_tier_normalization (exec : String → Bool) (listFile finalFile : String) :
    (normalizeStage exec listFile finalFile).1 = [mergeNormalizeCmd listFile finalFile] ∧
    ((normalizeStage exec listFile finalFile).2 = Except.ok () ↔
      exec (mergeNormalizeCmd listFile finalFile) = true) := by
  unfold normalizeStage
  cases h : exec (mergeNormalizeCmd listFile finalFile) <;> simp [h]

/-- C2 (counterexample): for a job with one audio input and job directory
`T`, the concat play-list's only entry references the raw download target
`T/audio_0.mp3` itself — an MP3, not a re-encoded uncompressed intermediate —
and the only ffmpeg invocation issued between download and play-list write is
the silence generation, which neither reads the downloaded file nor uses the
permissive-decode flag of the repair command. -/
theorem C2_counterexample :
    concatLines (downloadedFiles "T" 1) (silenceFilePath "T")
        = [fileLine ("T/audio_0.mp3")] ∧
    prePlaylistCommands "T" = [silenceCmd ("T/silence.m4a")] ∧
    strContains (silenceCmd ("T/silence.m4a")) "err_detect" = false ∧
    strContains (silenceCmd ("T/silence.m4a")) "audio_0" = false ∧
    strContains (sanitizeMp3ToWavCmd "T/audio_0.mp3" "T/audio_0.wav") "err_detect" = true ∧
    strContains (fileLine ("T/audio_0.mp3")) ".mp3" = true ∧
    strContains (fileLine ("T/audio_0.mp3")) ".wav" = false := by
  refine ⟨by decide, by decide, by decide, by decide, by decide, by decide, by decide⟩

/-- C2 (amended): in the main create-video pipeline (`Convert`) the
downloaded MP3 files are placed directly into the concat play-list — the
non-silence entries are exactly the raw download paths, in order — and the
only command issued between download and play-list write generates the
silence filler; the permissive decode / re-encode to fixed-format WAV
(`sanitizeMp3ToWav`) exists only in the separate audio-only endpoint of
`lat_ffmpeh_controller.js`. -/
theorem C2_no_repair_stage (jobDir : String) (n : Nat) :
    prePlaylistCommands jobDir = [silenceCmd (silenceFilePath jobDir)] ∧
    (concatLines (downloadedFiles jobDir n) (silenceFilePath jobDir)).filter
        (fun l => !(l == fileLine (silenceFilePath jobDir)))
      = (downloadedFiles jobDir n).map fileLine := by
  refine ⟨rfl, ?_⟩
  rw [concatLines_eq_intersperse]
  exact filter_intersperse _ _ (by simp) _ (mem_map_downloadedFiles_ne_silence jobDir n)

/-- C3 (counterexample): a successful 500-byte response — far below the
claimed 2 KB minimum-sanity threshold — is saved and returned by
`downloadFile` as a success, not rejected with a download error. -/
theorem C3_counterexample :
    downloadFile (Except.ok 500) (100 * MB) = Except.ok 500 ∧ 500 < 2048 := by
  refine ⟨rfl, by decide⟩

/-- C3 (amended): `downloadFile` enforces only the maximum-size ceiling and
propagates transport errors; it applies no minimum-size threshold, so every
fetched body smaller than 2 KB (in particular an HTML error page) is saved
and returned as a valid file. -/
theorem C3_no_minimum_size (len : Nat) (h : len < 2048) :
    downloadFile (Except.ok len) (100 * MB) = Except.ok len := by
  unfold downloadFile
  have hle : ¬ (len > 100 * MB) := by
    unfold MB
    omega
  simp [hle]

/-- Witness for C3_no_minimum_size at a concrete 500-byte body. -/
theorem C3_no_minimum_size_witness :
    downloadFile (Except.ok 500) (100 * MB) = Except.ok 500 :=
  C3_no_minimum_size 500 (by decide)

/-- C9 (counterexample): the image download call site uses the same
constraints as the audio call sites — the 100 MB default ceiling and the
hard-coded 60-second timeout — not the claimed 25 MB ceiling and 90-second
timeout. -/
theorem C9_counterexample :
    imageDownloadConstraints = { maxSize := 100 * MB, timeoutMs := 60000 } ∧
    ¬ imageDownloadConstraints.maxSize = 25 * MB ∧
    ¬ imageDownloadConstraints.timeoutMs = 90000 := by
  refine ⟨by decide, by decide, by decide⟩

/-- C9 (amended): the Fetcher applies no per-type constraints: both the audio
downloads and the image download run with a 100 MB size ceiling and a
60-second request timeout. -/
theorem C9_uniform_constraints :
    audioDownloadConstraints.maxSize = 100 * MB ∧
    audioDownloadConstraints.timeoutMs = 60000 ∧
    imageDownloadConstraints = audioDownloadConstraints := by
  refine ⟨rfl, rfl, rfl⟩

/-- C10: the download sub-endpoints check the `jobId` route parameter for
presence only and join it raw onto the temp directory: for the traversal
value `../../etc` the resolved video and thumbnail paths escape the temp
area entirely (they do not extend `cwd/temp`), and when a file exists at the
escaped location the endpoint streams it. -/
theorem C10_path_traversal :
    withinTemp ["srv", "app"] (resolvedVideoPath ["srv", "app"] "../../etc") = false ∧
    resolvedVideoPath ["srv", "app"] "../../etc" = ["srv", "etc", "final_video.mp4"] ∧
    downloadVideo ["srv", "app"] (fun p => p == ["srv", "etc", "final_video.mp4"]) "../../etc"
      = DlResponse.stream ["srv", "etc", "final_video.mp4"] ∧
    withinTemp ["srv", "app"] (resolvedThumbnailPath ["srv", "app"] "../../etc") = false ∧
    downloadThumbnail ["srv", "app"] (fun p => p == ["srv", "etc", "thumbnail.jpg"]) "../../etc"
      = DlResponse.stream ["srv", "etc", "thumbnail.jpg"] ∧
    strContains "../../etc" ".." = true ∧
    downloadVideo ["srv", "app"] (fun _ => false) "" = DlResponse.badRequest := by
  refine ⟨by decide, by decide, by decide, by decide, by decide, by decide, by decide⟩

/-- C4: for every job directory and every N with 1 ≤ N ≤ 20, the concat
play-list holds the N track lines with the silence line interspersed between
adjacent tracks: its length is 2N−1, it contains exactly N non-silence
(track) entries and exactly N−1 silence entries, and position i holds the
(i/2)-th track line when i is even and the silence line when i is odd — so
the entries strictly alternate and no silence entry precedes the first track
or follows the last. -/
theorem C4_playlist_structure (jobDir : String) (n : Nat) (h1 : 1 ≤ n) (h2 : n ≤ 20) :
    concatLines (downloadedFiles jobDir n) (silenceFilePath jobDir)
        = List.intersperse (fileLine (silenceFilePath jobDir))
            ((downloadedFiles jobDir n).map fileLine) ∧
    (concatLines (downloadedFiles jobDir n) (silenceFilePath jobDir)).length = 2 * n - 1 ∧
    (concatLines (downloadedFiles jobDir n) (silenceFilePath jobDir)).countP
        (fun l => !(l == fileLine (silenceFilePath jobDir))) = n ∧
    (concatLines (downloadedFiles jobDir n) (silenceFilePath jobDir)).countP
        (fun l => l == fileLine (silenceFilePath jobDir)) = n - 1 ∧
    (∀ i, i < 2 * n - 1 →
      (concatLines (downloadedFiles jobDir n) (silenceFilePath jobDir)).getD i ""
        = if i % 2 = 0 then fileLine (audioFilePath jobDir (i / 2))
          else fileLine (silenceFilePath jobDir)) := by
  have hch := concatLines_eq_intersperse (downloadedFiles jobDir n) (silenceFilePath jobDir)
  have hlen : ((downloadedFiles jobDir n).map fileLine).length = n := by
    simp [length_downloadedFiles]
  refine ⟨hch, ?_, ?_, ?_, ?_⟩
  · rw [hch, length_intersperse, hlen]
  · rw [hch,
      countP_intersperse _ _ (by simp) _ (mem_map_downloadedFiles_ne_silence jobDir n), hlen]
  · rw [hch, countP_sep_intersperse _ _ (by simp) _ (fun x hx => by
      have hne := mem_map_downloadedFiles_ne_silence jobDir n x hx
      simpa using hne), hlen]
  · intro i hi
    rw [hch, getD_intersperse _ _ _ i (by rw [hlen]; exact hi)]
    by_cases hp : i % 2 = 0
    · rw [if_pos hp, if_pos hp,
        getD_map_downloadedFiles jobDir (show i / 2 < n by omega)]
    · rw [if_neg hp, if_neg hp]

/-- Witness for C4_playlist_structure at job directory `T` and N = 3. -/
theorem C4_playlist_structure_witness :
    concatLines (downloadedFiles "T" 3) (silenceFilePath "T")
      = [fileLine (audioFilePath "T" 0), fileLine (silenceFilePath "T"),
          fileLine (audioFilePath "T" 1), fileLine (silenceFilePath "T"),
          fileLine (audioFilePath "T" 2)] ∧
    (concatLines (downloadedFiles "T" 3) (silenceFilePath "T")).countP
        (fun l => !(l == fileLine (silenceFilePath "T"))) = 3 ∧
    (concatLines (downloadedFiles "T" 3) (silenceFilePath "T")).countP
        (fun l => l == fileLine (silenceFilePath "T")) = 2 := by
  refine ⟨by decide, ?_, ?_⟩
  · exact (C4_playlist_structure "T" 3 (by decide) (by decide)).2.2.1
  · exact (C4_playlist_structure "T" 3 (by decide) (by decide)).2.2.2.1

/-- C5: divergence between the code and its own documentation. The primary
video encode command contains no zoom filter at all — its filter graph is
exactly the scale and center-crop shared with the fallback — although the
code's comments, log lines and the repository documentation
(VIDEO_NO_TEXT.md, CHANGES.md, Requirements.md) describe a `zoompan` filter
with magnification rising from 1.0 to a 1.5 cap.  The fallback (attempted
only after the primary invocation fails, as its place in the stage trace
shows) differs from the primary only in the encode preset and quality/bitrate
settings, not in any zoom effect. -/
theorem C5_zoom_filter_absent :
    strContains (videoCommand "T/background.jpg" "T/final_audio.m4a" "T/final_video.mp4")
        "zoompan" = false ∧
    strContains (videoCommand "T/background.jpg" "T/final_audio.m4a" "T/final_video.mp4")
        "zoom" = false ∧
    strContains (videoCommand "T/background.jpg" "T/final_audio.m4a" "T/final_video.mp4")
        "scale=1920:1080:force_original_aspect_ratio=increase,crop=1920:1080" = true ∧
    strContains (videoCommand "T/background.jpg" "T/final_audio.m4a" "T/final_video.mp4")
        "-preset slow -crf 18" = true ∧
    strContains (simpleVideoCommand "T/background.jpg" "T/final_audio.m4a" "T/final_video.mp4")
        "scale=1920:1080:force_original_aspect_ratio=increase,crop=1920:1080" = true ∧
    strContains (simpleVideoCommand "T/background.jpg" "T/final_audio.m4a" "T/final_video.mp4")
        "-preset medium -crf 23" = true ∧
    strContains (simpleVideoCommand "T/background.jpg" "T/final_audio.m4a" "T/final_video.mp4")
        "zoom" = false ∧
    (videoStage (fun _ => true) "T/background.jpg" "T/final_audio.m4a" "T/final_video.mp4").1
      = [videoCommand "T/background.jpg" "T/final_audio.m4a" "T/final_video.mp4"] ∧
    (videoStage (fun _ => false) "T/background.jpg" "T/final_audio.m4a" "T/final_video.mp4").1
      = [videoCommand "T/background.jpg" "T/final_audio.m4a" "T/final_video.mp4",
          simpleVideoCommand "T/background.jpg" "T/final_audio.m4a" "T/final_video.mp4"] := by
  refine ⟨by decide, by decide, by decide, by decide, by decide, by decide, by decide, rfl, rfl⟩

/-- C6: the thumbnail step attempts exactly the three tiers in order —
bundled font, then no explicit font, then no text — with each later tier
attempted exactly when every prior tier failed (the invocation trace is an
in-order prefix of the three-tier cascade, extending past tier k exactly when
tier k fails); a thumbnail error is raised precisely when all three
invocations fail, and in that case — and only that case — the whole job
answers with a single HTTP 500 failure instead of the success response, which
always carries both the video URL and the thumbnail URL (no video-only
partial success exists). -/
theorem C6_thumbnail_cascade (exec : String → Bool)
    (imagePath sv ss thumbnailFile jobId : String) :
    ((thumbnailStage exec imagePath sv ss thumbnailFile).2
        = Except.error "Failed to create thumbnail" ↔
      exec (thumbCmdFont imagePath sv ss thumbnailFile) = false ∧
      exec (thumbCmdNoFont imagePath sv ss thumbnailFile) = false ∧
      exec (thumbCmdNoText imagePath thumbnailFile) = false) ∧
    (thumbnailStage exec imagePath sv ss thumbnailFile).1
      = [thumbCmdFont imagePath sv ss thumbnailFile,
          thumbCmdNoFont imagePath sv ss thumbnailFile,
          thumbCmdNoText imagePath thumbnailFile].take
          (thumbnailStage exec imagePath sv ss thumbnailFile).1.length ∧
    (2 ≤ (thumbnailStage exec imagePath sv ss thumbnailFile).1.length ↔
      exec (thumbCmdFont imagePath sv ss thumbnailFile) = false) ∧
    (3 ≤ (thumbnailStage exec imagePath sv ss thumbnailFile).1.length ↔
      exec (thumbCmdFont imagePath sv ss thumbnailFile) = false ∧
      exec (thumbCmdNoFont imagePath sv ss thumbnailFile) = false) ∧
    (convertAfterVideo exec jobId imagePath sv ss thumbnailFile
        = JobResponse.failure 500 "Video creation failed" "Failed to create thumbnail" ↔
      exec (thumbCmdFont imagePath sv ss thumbnailFile) = false ∧
      exec (thumbCmdNoFont imagePath sv ss thumbnailFile) = false ∧
      exec (thumbCmdNoText imagePath thumbnailFile) = false) ∧
    (convertAfterVideo exec jobId imagePath sv ss thumbnailFile
        = JobResponse.success ("/api/ffmpeg/download/video/" ++ jobId)
            ("/api/ffmpeg/download/thumbnail/" ++ jobId) ↔
      ¬(exec (thumbCmdFont imagePath sv ss thumbnailFile) = false ∧
        exec (thumbCmdNoFont imagePath sv ss thumbnailFile) = false ∧
        exec (thumbCmdNoText imagePath thumbnailFile) = false)) := by
  cases h1 : exec (thumbCmdFont imagePath sv ss thumbnailFile) <;>
    cases h2 : exec (thumbCmdNoFont imagePath sv ss thumbnailFile) <;>
      cases h3 : exec (thumbCmdNoText imagePath thumbnailFile) <;>
        simp [thumbnailStage, convertAfterVideo, h1, h2, h3]

/-- C7: workspace reclamation is a single point of cleanup at request entry.
For every initial scratch state and every request (accepted or rejected): the
request's first two actions are the full cleanup and then payload validation,
the scratch area is empty at the moment validation begins — also when the
request follows process startup — and the cleanup action occurs exactly once
per request and nowhere after validation; neither the startup code nor the
shutdown handler performs any cleanup. -/
theorem C7_cleanup_single_point (init : List String) (valid : Bool) (jobId : String) :
    (convertActions valid jobId).take 2
      = [LifecycleAction.cleanupAllTempFiles, LifecycleAction.validatePayload] ∧
    runActions init ((convertActions valid jobId).take 1) = [] ∧
    (convertActions valid jobId).count LifecycleAction.cleanupAllTempFiles = 1 ∧
    ((convertActions valid jobId).drop 1).count LifecycleAction.cleanupAllTempFiles = 0 ∧
    startupActions.count LifecycleAction.cleanupAllTempFiles = 0 ∧
    shutdownActions.count LifecycleAction.cleanupAllTempFiles = 0 ∧
    runActions init (startupActions ++ (convertActions valid jobId).take 1) = [] := by
  cases valid <;> exact ⟨rfl, rfl, rfl, rfl, rfl, rfl, rfl⟩

/-- C8: a request whose audio list has more than 20 entries is rejected with
HTTP 400 and the message citing the 20-file maximum, and the rejected request
performs no download of any audio or image URL. -/
theorem C8_reject_over_20 (b : ReqBody) (files : List String)
    (h1 : b.files = some files) (h2 : 20 < files.length) :
    validateRequest b = ValidationOutcome.reject 400 "Maximum 20 audio files allowed." ∧
    downloadsPerformed b = [] ∧
    strContains "Maximum 20 audio files allowed." "20" = true := by
  have hv : validateRequest b
      = ValidationOutcome.reject 400 "Maximum 20 audio files allowed." := by
    unfold validateRequest
    rw [h1]
    have hne : ¬ files.length = 0 := by omega
    simp [hne, h2]
  refine ⟨hv, ?_, by decide⟩
  unfold downloadsPerformed
  rw [hv]

/-- Witness for C8_reject_over_20 at a concrete request body with 21 audio
URLs. -/
theorem C8_reject_over_20_witness :
    validateRequest exampleOver20Body
        = ValidationOutcome.reject 400 "Maximum 20 audio files allowed." ∧
    downloadsPerformed exampleOver20Body = [] ∧
    strContains "Maximum 20 audio files allowed." "20" = true :=
  C8_reject_over_20 exampleOver20Body (List.replicate 21 "https://example.com/a.mp3")
    rfl (by decide)

end Sebestian
